import Mathlib

/-!
Shallow embedding of `src/wallet/index.ts` of the xverse-core wallet module.

The module is a thin orchestration layer over external cryptographic
libraries (bip39, bip32, @stacks/transactions, @scure/btc-signer,
bitcoinjs-lib, c32check, bitcoin-address-validation).  Those libraries are
out of scope of the specification; here they are abstracted as the fields
of a `CryptoLibs` structure, so all theorems quantify over any library
implementation.  Byte buffers (`Buffer`, `Uint8Array`) are `List Nat`,
JavaScript `bigint` is `Int`, thrown exceptions / rejected promises are
`Except String`, and `undefined`-able fields are `Option`.

Constants imported from `../constant` and the helpers in
`../transactions/btcNetwork` and `./helper` are not part of the sources
under study; they are modelled from the spec where needed and marked so.
-/

namespace Xverse

/-- Byte buffers (JS Buffer / Uint8Array) as lists of byte values. -/
abbrev Bytes := List Nat

/-- The two-valued network enumeration (`types/network`). -/
inductive NetworkType where
  | Mainnet
  | Testnet
deriving DecidableEq

/-- ChainID from @stacks/transactions (Mainnet = 1, Testnet = 2147483648). -/
inductive ChainID where
  | Mainnet
  | Testnet
deriving DecidableEq

/-- TransactionVersion from @stacks/transactions. -/
inductive TransactionVersion where
  | Mainnet
  | Testnet
deriving DecidableEq

/-- bitcoinjs-lib `networks` values used by the code. -/
inductive BtcNetwork where
  | bitcoin
  | testnet
deriving DecidableEq

/-- bitcoin-address-validation `Network` values used by the code. -/
inductive BtcAddrNetwork where
  | mainnet
  | testnet
deriving DecidableEq

/-- A BIP32 HD node as the code observes it: an optional private key and a
public key (`BIP32Interface` of the bip32 library). -/
structure BIP32Node where
  privateKey : Option Bytes
  publicKey : Bytes
deriving DecidableEq

/-- An ECPair as the code observes it (bitcoinjs ECPair). -/
structure ECPairT where
  privateKey : Bytes
  publicKey : Bytes
deriving DecidableEq

/-- AddressVersion constants of @stacks/transactions (c32 version bytes). -/
def AddressVersionMainnetSingleSig : Nat := 22

/-- AddressVersion.MainnetMultiSig of @stacks/transactions. -/
def AddressVersionMainnetMultiSig : Nat := 20

/-- AddressVersion.TestnetSingleSig of @stacks/transactions. -/
def AddressVersionTestnetSingleSig : Nat := 26

/-- AddressVersion.TestnetMultiSig of @stacks/transactions. -/
def AddressVersionTestnetMultiSig : Nat := 21

/-- Lower-case hex digit for a value below 16 (as produced by
`Buffer.toString` with base 16 and by @scure/base hex). -/
def hexDigitChar (n : Nat) : Char :=
  if n < 10 then Char.ofNat (48 + n) else Char.ofNat (87 + n)

/-- Two-digit lower-case hex rendering of one byte. -/
def byteToHex (b : Nat) : String :=
  String.mk [hexDigitChar (b / 16 % 16), hexDigitChar (b % 16)]

/-- `buffer.toString` with hex encoding / `hex.encode` of @scure/base. -/
def hexEncode (bs : Bytes) : String :=
  String.join (bs.map byteToHex)

/-- Numeric value of one hex digit character. -/
def hexDigitVal (c : Char) : Nat :=
  if 48 ≤ c.toNat ∧ c.toNat ≤ 57 then c.toNat - 48
  else if 97 ≤ c.toNat ∧ c.toNat ≤ 102 then c.toNat - 87
  else if 65 ≤ c.toNat ∧ c.toNat ≤ 70 then c.toNat - 55
  else 0

/-- Pairwise hex decoding of a character list. -/
def hexDecodeList : List Char → Bytes
  | c1 :: c2 :: rest => (16 * hexDigitVal c1 + hexDigitVal c2) :: hexDecodeList rest
  | _ => []

/-- `hex.decode` of @scure/base on well-formed hex input. -/
def hexDecode (s : String) : Bytes := hexDecodeList s.data

/-- Modelled from the spec: constant `STX_PATH_WITHOUT_INDEX` of
`../constant` (not under the sources in scope) — the fixed Stacks
derivation-path template, a BIP44-style path for the Stacks coin type to
which only the address index is appended (spec 4.3: fixed template with no
account parameter). -/
def STX_PATH_WITHOUT_INDEX : String := "m/44\x27/5757\x27/0\x27/0/"

/-- Modelled from the spec: constant `BTC_WRAPPED_SEGWIT_PATH_PURPOSE` of
`../constant` — the purpose segment of the BIP49 wrapped-segwit path
(spec 4.3 and 8: the wrapped-segwit path purpose, followed by the
coin-type segment). -/
def BTC_WRAPPED_SEGWIT_PATH_PURPOSE : String := "m/49\x27/"

/-- Modelled from the spec: constant `BTC_SEGWIT_PATH_PURPOSE` of
`../constant` — the purpose segment of the BIP84 native-segwit path. -/
def BTC_SEGWIT_PATH_PURPOSE : String := "m/84\x27/"

/-- Modelled from the spec: constant `BTC_TAPROOT_PATH_PURPOSE` of
`../constant` — the purpose segment of the BIP86 taproot path. -/
def BTC_TAPROOT_PATH_PURPOSE : String := "m/86\x27/"

/-- `derivationPaths` (src/wallet/index.ts line 35): maps each ChainID to
its Stacks path template; both map to `STX_PATH_WITHOUT_INDEX`. -/
def derivationPaths (chain : ChainID) : String :=
  match chain with
  | ChainID.Mainnet => STX_PATH_WITHOUT_INDEX
  | ChainID.Testnet => STX_PATH_WITHOUT_INDEX

/-- `getDerivationPath` (line 40): template selected by the chain, with the
index rendered and appended. -/
def getDerivationPath (chain : ChainID) (index : Int) : String :=
  derivationPaths chain ++ toString index

/-- JS truthiness on the optional `account` argument:
`account ? account.toString() : '0'` — `undefined` and `0n` are falsy. -/
def accountIndexString (account : Option Int) : String :=
  match account with
  | none => "0"
  | some a => if a = 0 then "0" else toString a

/-- `getBitcoinDerivationPath` (line 132): wrapped-segwit path with the
coin-type segment selected by the network. -/
def getBitcoinDerivationPath (account : Option Int) (index : Int) (network : NetworkType) : String :=
  let accountIndex := accountIndexString account
  match network with
  | NetworkType.Mainnet =>
    BTC_WRAPPED_SEGWIT_PATH_PURPOSE ++ "0\x27/" ++ accountIndex ++ "\x27/0/" ++ toString index
  | NetworkType.Testnet =>
    BTC_WRAPPED_SEGWIT_PATH_PURPOSE ++ "1\x27/" ++ accountIndex ++ "\x27/0/" ++ toString index

/-- `getSegwitDerivationPath` (line 147): native-segwit path with the
coin-type segment selected by the network. -/
def getSegwitDerivationPath (account : Option Int) (index : Int) (network : NetworkType) : String :=
  let accountIndex := accountIndexString account
  match network with
  | NetworkType.Mainnet =>
    BTC_SEGWIT_PATH_PURPOSE ++ "0\x27/" ++ accountIndex ++ "\x27/0/" ++ toString index
  | NetworkType.Testnet =>
    BTC_SEGWIT_PATH_PURPOSE ++ "1\x27/" ++ accountIndex ++ "\x27/0/" ++ toString index

/-- `getTaprootDerivationPath` (line 162): taproot path with the coin-type
segment selected by the network. -/
def getTaprootDerivationPath (account : Option Int) (index : Int) (network : NetworkType) : String :=
  let accountIndex := accountIndexString account
  match network with
  | NetworkType.Mainnet =>
    BTC_TAPROOT_PATH_PURPOSE ++ "0\x27/" ++ accountIndex ++ "\x27/0/" ++ toString index
  | NetworkType.Testnet =>
    BTC_TAPROOT_PATH_PURPOSE ++ "1\x27/" ++ accountIndex ++ "\x27/0/" ++ toString index

/-- The external cryptographic libraries the module delegates to, abstracted
as pure functions (spec 1: all primitives are out-of-scope collaborators).
`ecPairToHexString` is the helper of `./helper` (not under the sources in
scope), likewise abstracted. -/
structure CryptoLibs where
  mnemonicToSeed : String → Bytes
  fromSeed : Bytes → BIP32Node
  derivePath : BIP32Node → String → BIP32Node
  ecPairFromPrivateKey : Bytes → ECPairT
  ecPairToHexString : ECPairT → String
  getAddressFromPrivateKey : String → TransactionVersion → String
  createStacksPrivateKey : String → Bytes
  getPublicKey : Bytes → Bytes
  publicKeyToString : Bytes → String
  schnorrGetPublicKey : Bytes → Bytes
  btcGetAddressTr : Bytes → BtcNetwork → String
  p2shP2wpkhAddress : Bytes → BtcNetwork → String
  c32addressDecode : String → Except String (Nat × String)
  validate : String → BtcAddrNetwork → Except String Bool

/-- Result record of `deriveStxAddressChain` (the `Keychain` shape). -/
structure Keychain where
  childKey : BIP32Node
  address : String
  privateKey : String
deriving DecidableEq

/-- The Wallet Record (`BaseWallet` of types/wallet). -/
structure BaseWallet where
  stxAddress : String
  btcAddress : String
  ordinalsAddress : String
  masterPubKey : String
  stxPublicKey : String
  btcPublicKey : String
  ordinalsPublicKey : String
  seedPhrase : String
deriving DecidableEq

/-- Line 87: `network === 'Mainnet' ? ChainID.Mainnet : ChainID.Testnet`. -/
def chainForNetwork (network : NetworkType) : ChainID :=
  match network with
  | NetworkType.Mainnet => ChainID.Mainnet
  | NetworkType.Testnet => ChainID.Testnet

/-- `deriveStxAddressChain` (line 44): derive the child at the Stacks path,
fail when it has no private key, otherwise build the Keychain record. -/
def deriveStxAddressChain (L : CryptoLibs) (chain : ChainID) (index : Int)
    (rootNode : BIP32Node) : Except String Keychain :=
  let childKey := L.derivePath rootNode (getDerivationPath chain index)
  match childKey.privateKey with
  | none => Except.error "Unable to derive private key from rootNode, bip32 master keychain"
  | some pk =>
    let ecPair := L.ecPairFromPrivateKey pk
    let privateKey := L.ecPairToHexString ecPair
    let txVersion :=
      match chain with
      | ChainID.Mainnet => TransactionVersion.Mainnet
      | ChainID.Testnet => TransactionVersion.Testnet
    Except.ok
      { childKey := childKey
        address := L.getAddressFromPrivateKey privateKey txVersion
        privateKey := privateKey }

/-- Modelled from the spec: `getBtcNetwork` of `../transactions/btcNetwork`
(not under the sources in scope) — the network value selects the
corresponding bitcoinjs network (spec 3: Network is pure configuration
selecting address-version bytes). -/
def getBtcNetwork (network : NetworkType) : BtcNetwork :=
  match network with
  | NetworkType.Mainnet => BtcNetwork.bitcoin
  | NetworkType.Testnet => BtcNetwork.testnet

/-- Lines 83–84 and 94: the root/master node derived from the mnemonic
(`bip32.fromSeed` of `bip39.mnemonicToSeed`; both local constants are this
same call). -/
def wfspMaster (L : CryptoLibs) (mnemonic : String) : BIP32Node :=
  L.fromSeed (L.mnemonicToSeed mnemonic)

/-- Line 99: the wrapped-segwit child node used inside
`walletFromSeedPhrase` (account omitted). -/
def wfspBtcChild (L : CryptoLibs) (mnemonic : String) (index : Int)
    (network : NetworkType) : BIP32Node :=
  L.derivePath (wfspMaster L mnemonic) (getBitcoinDerivationPath none index network)

/-- Line 103: the taproot child node used inside `walletFromSeedPhrase`
(account omitted). -/
def wfspTaprootChild (L : CryptoLibs) (mnemonic : String) (index : Int)
    (network : NetworkType) : BIP32Node :=
  L.derivePath (wfspMaster L mnemonic) (getTaprootDerivationPath none index network)

/-- Line 111/114: `network === 'Mainnet' ? networks.bitcoin : networks.testnet`. -/
def bitcoinjsNetwork (network : NetworkType) : BtcNetwork :=
  match network with
  | NetworkType.Mainnet => BtcNetwork.bitcoin
  | NetworkType.Testnet => BtcNetwork.testnet

/-- `walletFromSeedPhrase` (line 74): Stacks keychain, master public key,
Stacks public key, wrapped-segwit child and address, taproot child,
ordinals address and schnorr public key, assembled into the Wallet Record.
The non-null assertions `btcChild.privateKey!` and
`taprootBtcChild.privateKey!` are modelled as errors on `none`: at runtime
a missing private key makes `ECPair.fromPrivateKey` (resp. the member
access `.toString`) throw. -/
def walletFromSeedPhrase (L : CryptoLibs) (mnemonic : String) (index : Int)
    (network : NetworkType) : Except String BaseWallet :=
  match deriveStxAddressChain L (chainForNetwork network) index (wfspMaster L mnemonic) with
  | Except.error e => Except.error e
  | Except.ok kc =>
    let stxAddress := kc.address
    let privateKey := kc.privateKey
    let master := wfspMaster L mnemonic
    let masterPubKey := hexEncode master.publicKey
    let stxPublicKey := L.publicKeyToString (L.getPublicKey (L.createStacksPrivateKey privateKey))
    let btcChild := wfspBtcChild L mnemonic index network
    match btcChild.privateKey with
    | none => Except.error "TypeError: ECPair.fromPrivateKey of undefined"
    | some k =>
      let keyPair := L.ecPairFromPrivateKey k
      let taprootBtcChild := wfspTaprootChild L mnemonic index network
      match taprootBtcChild.privateKey with
      | none => Except.error "TypeError: Cannot read properties of undefined (reading toString)"
      | some kt =>
        let privKey := hexDecode (hexEncode kt)
        let btcNetwork := getBtcNetwork network
        let ordinalsAddress := L.btcGetAddressTr privKey btcNetwork
        let btcAddress := L.p2shP2wpkhAddress keyPair.publicKey (bitcoinjsNetwork network)
        Except.ok
          { stxAddress := stxAddress
            btcAddress := btcAddress
            ordinalsAddress := ordinalsAddress
            masterPubKey := masterPubKey
            stxPublicKey := stxPublicKey
            btcPublicKey := hexEncode keyPair.publicKey
            ordinalsPublicKey := hexEncode (L.schnorrGetPublicKey privKey)
            seedPhrase := mnemonic }

/-- `getBtcPrivateKey` (line 177): wrapped-segwit child private key as hex;
the non-null assertion is modelled as an error on `none` (member access on
`undefined` throws at runtime). -/
def getBtcPrivateKey (L : CryptoLibs) (seedPhrase : String) (index : Int)
    (network : NetworkType) : Except String String :=
  let master := wfspMaster L seedPhrase
  let btcChild := L.derivePath master (getBitcoinDerivationPath none index network)
  match btcChild.privateKey with
  | none => Except.error "TypeError: Cannot read properties of undefined (reading toString)"
  | some k => Except.ok (hexEncode k)

/-- `getBtcTaprootPrivateKey` (line 193): taproot child private key as hex. -/
def getBtcTaprootPrivateKey (L : CryptoLibs) (seedPhrase : String) (index : Int)
    (network : NetworkType) : Except String String :=
  let master := wfspMaster L seedPhrase
  let btcChild := L.derivePath master (getTaprootDerivationPath none index network)
  match btcChild.privateKey with
  | none => Except.error "TypeError: Cannot read properties of undefined (reading toString)"
  | some k => Except.ok (hexEncode k)

/-- `validateStxAddress` (line 209): c32-decode, JS-truthiness guard on the
version and hash components, then the per-network version-byte check; any
thrown error is caught and mapped to `false`. -/
def validateStxAddress (L : CryptoLibs) (stxAddress : String)
    (network : NetworkType) : Bool :=
  match L.c32addressDecode stxAddress with
  | Except.error _ => false
  | Except.ok result =>
    if result.1 != 0 && result.2 != "" then
      let addressVersion := result.1
      match network with
      | NetworkType.Mainnet =>
        if !(addressVersion == AddressVersionMainnetSingleSig
            || addressVersion == AddressVersionMainnetMultiSig) then false
        else true
      | NetworkType.Testnet =>
        if addressVersion != AddressVersionTestnetSingleSig
            && addressVersion != AddressVersionTestnetMultiSig then false
        else true
    else false

/-- Line 253: the network mapped to the validation library's Network value. -/
def btcValidationNetwork (network : NetworkType) : BtcAddrNetwork :=
  match network with
  | NetworkType.Mainnet => BtcAddrNetwork.mainnet
  | NetworkType.Testnet => BtcAddrNetwork.testnet

/-- `validateBtcAddress` (line 246): delegate to the validation library with
the network mapped to its Network value; any thrown error becomes `false`. -/
def validateBtcAddress (L : CryptoLibs) (btcAddress : String)
    (network : NetworkType) : Bool :=
  let btcNetwork := btcValidationNetwork network
  match L.validate btcAddress btcNetwork with
  | Except.error _ => false
  | Except.ok b => b

/-- Password-hash result shape of the `passwordHashGenerator` callback. -/
structure SaltHash where
  salt : String
  hash : String

/-- `encryptMnemonicWithCallback` (line 281): hash the password, run the
caller's encryption handler, hex-encode the resulting buffer. -/
def encryptMnemonicWithCallback (passwordHashGenerator : String → SaltHash)
    (mnemonicEncryptionHandler : String → String → Bytes)
    (password seed : String) : String :=
  let hash := (passwordHashGenerator password).hash
  let encryptedSeedBuffer := mnemonicEncryptionHandler seed hash
  hexEncode encryptedSeedBuffer

/-- `decryptMnemonicWithCallback` (line 290): hash the password, run the
caller's decryption handler on the stored ciphertext. -/
def decryptMnemonicWithCallback (passwordHashGenerator : String → SaltHash)
    (mnemonicDecryptionHandler : String → String → String)
    (password encryptedSeed : String) : String :=
  let hash := (passwordHashGenerator password).hash
  mnemonicDecryptionHandler encryptedSeed hash

/-- `getStxAddressKeyChain` (line 299): root node from the mnemonic, then
`deriveStxAddressChain` at the given chain and account index. -/
def getStxAddressKeyChain (L : CryptoLibs) (mnemonic : String) (chainID : ChainID)
    (accountIndex : Int) : Except String Keychain :=
  let rootNode := wfspMaster L mnemonic
  deriveStxAddressChain L chainID accountIndex rootNode

/-- `getBtcPrivateKey` reads the same wrapped-segwit child node that
`walletFromSeedPhrase` uses (identical master and path expressions). -/
theorem getBtcPrivateKey_eq_match (L : CryptoLibs) (seedPhrase : String) (index : Int)
    (network : NetworkType) :
    getBtcPrivateKey L seedPhrase index network =
      match (wfspBtcChild L seedPhrase index network).privateKey with
      | none => Except.error "TypeError: Cannot read properties of undefined (reading toString)"
      | some k => Except.ok (hexEncode k) := rfl

/-- `getBtcTaprootPrivateKey` reads the same taproot child node that
`walletFromSeedPhrase` uses. -/
theorem getBtcTaprootPrivateKey_eq_match (L : CryptoLibs) (seedPhrase : String) (index : Int)
    (network : NetworkType) :
    getBtcTaprootPrivateKey L seedPhrase index network =
      match (wfspTaprootChild L seedPhrase index network).privateKey with
      | none => Except.error "TypeError: Cannot read properties of undefined (reading toString)"
      | some k => Except.ok (hexEncode k) := rfl

/-- A concrete, executable stand-in for the external libraries, used to
evaluate the theorems on closed inputs. Every field is a simple total
function; derivation always yields a private key. -/
def testLibs : CryptoLibs where
  mnemonicToSeed := fun m => [m.length % 256]
  fromSeed := fun seed => { privateKey := some (1 :: seed), publicKey := 2 :: seed }
  derivePath := fun node path =>
    { privateKey := some (path.length % 256 :: node.publicKey)
      publicKey := 3 :: path.length % 256 :: node.publicKey }
  ecPairFromPrivateKey := fun k => { privateKey := k, publicKey := 4 :: k }
  ecPairToHexString := fun p => hexEncode p.privateKey
  getAddressFromPrivateKey := fun pk v =>
    (match v with
      | TransactionVersion.Mainnet => "SP"
      | TransactionVersion.Testnet => "ST") ++ pk
  createStacksPrivateKey := fun s => hexDecode s
  getPublicKey := fun k => 5 :: k
  publicKeyToString := fun k => hexEncode k
  schnorrGetPublicKey := fun k => 6 :: k
  btcGetAddressTr := fun k _ => "bc1p" ++ hexEncode k
  p2shP2wpkhAddress := fun k _ => "3" ++ hexEncode k
  c32addressDecode := fun _ => Except.error "Invalid c32 address: checksum mismatch"
  validate := fun _ _ => Except.ok false

/-- All-empty Wallet Record used as a default when extracting from Except. -/
def emptyWallet : BaseWallet :=
  { stxAddress := "", btcAddress := "", ordinalsAddress := "", masterPubKey := ""
    stxPublicKey := "", btcPublicKey := "", ordinalsPublicKey := "", seedPhrase := "" }

/-- The wallet produced by `walletFromSeedPhrase` on the test libraries. -/
def testWallet : BaseWallet :=
  (walletFromSeedPhrase testLibs "abc" 0 NetworkType.Mainnet).toOption.getD emptyWallet

/-- C1: `walletFromSeedPhrase` is deterministic — it is a pure function of
its inputs, so two calls with the same (mnemonic, index, network) that
succeed return Wallet Records agreeing in all eight fields. -/
theorem walletFromSeedPhrase_deterministic (L : CryptoLibs) (mnemonic : String)
    (index : Int) (network : NetworkType) (w1 w2 : BaseWallet)
    (h1 : walletFromSeedPhrase L mnemonic index network = Except.ok w1)
    (h2 : walletFromSeedPhrase L mnemonic index network = Except.ok w2) :
    w1.stxAddress = w2.stxAddress ∧ w1.btcAddress = w2.btcAddress
    ∧ w1.ordinalsAddress = w2.ordinalsAddress ∧ w1.masterPubKey = w2.masterPubKey
    ∧ w1.stxPublicKey = w2.stxPublicKey ∧ w1.btcPublicKey = w2.btcPublicKey
    ∧ w1.ordinalsPublicKey = w2.ordinalsPublicKey ∧ w1.seedPhrase = w2.seedPhrase := by
  have h := h1.symm.trans h2
  injection h with h
  subst h
  exact ⟨rfl, rfl, rfl, rfl, rfl, rfl, rfl, rfl⟩

/-- Witness for C1 at a concrete successful input. -/
theorem walletFromSeedPhrase_deterministic_witness :
    testWallet.stxAddress = testWallet.stxAddress
    ∧ testWallet.btcAddress = testWallet.btcAddress
    ∧ testWallet.ordinalsAddress = testWallet.ordinalsAddress
    ∧ testWallet.masterPubKey = testWallet.masterPubKey
    ∧ testWallet.stxPublicKey = testWallet.stxPublicKey
    ∧ testWallet.btcPublicKey = testWallet.btcPublicKey
    ∧ testWallet.ordinalsPublicKey = testWallet.ordinalsPublicKey
    ∧ testWallet.seedPhrase = testWallet.seedPhrase :=
  walletFromSeedPhrase_deterministic testLibs "abc" 0 NetworkType.Mainnet
    testWallet testWallet (by rfl) (by rfl)

/-- C3: when `walletFromSeedPhrase` succeeds, `getBtcPrivateKey` returns
exactly the hex private key of the wrapped-segwit child node whose public
key becomes `btcPublicKey`, and `getBtcTaprootPrivateKey` returns exactly
the hex private key of the taproot child node whose schnorr public key
becomes `ordinalsPublicKey`. -/
theorem btcPrivateKey_roundtrip_with_wallet (L : CryptoLibs) (mnemonic : String)
    (index : Int) (network : NetworkType) (w : BaseWallet)
    (hw : walletFromSeedPhrase L mnemonic index network = Except.ok w) :
    ∃ k kt,
      (wfspBtcChild L mnemonic index network).privateKey = some k
      ∧ getBtcPrivateKey L mnemonic index network = Except.ok (hexEncode k)
      ∧ w.btcPublicKey = hexEncode (L.ecPairFromPrivateKey k).publicKey
      ∧ (wfspTaprootChild L mnemonic index network).privateKey = some kt
      ∧ getBtcTaprootPrivateKey L mnemonic index network = Except.ok (hexEncode kt)
      ∧ w.ordinalsPublicKey = hexEncode (L.schnorrGetPublicKey (hexDecode (hexEncode kt))) := by
  cases hkc : deriveStxAddressChain L (chainForNetwork network) index (wfspMaster L mnemonic) with
  | error e => simp [walletFromSeedPhrase, hkc] at hw
  | ok kc =>
    cases hb : (wfspBtcChild L mnemonic index network).privateKey with
    | none => simp [walletFromSeedPhrase, hkc, hb] at hw
    | some k =>
      cases ht : (wfspTaprootChild L mnemonic index network).privateKey with
      | none => simp [walletFromSeedPhrase, hkc, hb, ht] at hw
      | some kt =>
        refine ⟨k, kt, rfl, ?_, ?_, rfl, ?_, ?_⟩
        · rw [getBtcPrivateKey_eq_match, hb]
        · simp [walletFromSeedPhrase, hkc, hb, ht] at hw
          rw [← hw]
        · rw [getBtcTaprootPrivateKey_eq_match, ht]
        · simp [walletFromSeedPhrase, hkc, hb, ht] at hw
          rw [← hw]

/-- Witness for C3 at a concrete successful input. -/
theorem btcPrivateKey_roundtrip_with_wallet_witness :
    ∃ k kt,
      (wfspBtcChild testLibs "abc" 0 NetworkType.Mainnet).privateKey = some k
      ∧ getBtcPrivateKey testLibs "abc" 0 NetworkType.Mainnet = Except.ok (hexEncode k)
      ∧ testWallet.btcPublicKey = hexEncode (testLibs.ecPairFromPrivateKey k).publicKey
      ∧ (wfspTaprootChild testLibs "abc" 0 NetworkType.Mainnet).privateKey = some kt
      ∧ getBtcTaprootPrivateKey testLibs "abc" 0 NetworkType.Mainnet = Except.ok (hexEncode kt)
      ∧ testWallet.ordinalsPublicKey
          = hexEncode (testLibs.schnorrGetPublicKey (hexDecode (hexEncode kt))) :=
  btcPrivateKey_roundtrip_with_wallet testLibs "abc" 0 NetworkType.Mainnet testWallet (by rfl)

/-- Library stand-in whose derived child nodes never carry a private key. -/
def noneKeyLibs : CryptoLibs :=
  { testLibs with derivePath := fun node _ => { privateKey := none, publicKey := node.publicKey } }

/-- C7: whenever a derived child node lacks a private key, the derivation
that uses it signals an error: `deriveStxAddressChain` on its child,
`walletFromSeedPhrase` on its Stacks, wrapped-segwit or taproot child, and
`getBtcPrivateKey` / `getBtcTaprootPrivateKey` on their children, each
return an error and no record or key string. -/
theorem derivations_error_on_missing_private_key (L : CryptoLibs) (mnemonic : String)
    (index : Int) (network : NetworkType) (chain : ChainID) (idx : Int)
    (rootNode : BIP32Node) :
    ((L.derivePath rootNode (getDerivationPath chain idx)).privateKey = none →
      ∃ e, deriveStxAddressChain L chain idx rootNode = Except.error e)
    ∧ ((L.derivePath (wfspMaster L mnemonic)
          (getDerivationPath (chainForNetwork network) index)).privateKey = none →
      ∃ e, walletFromSeedPhrase L mnemonic index network = Except.error e)
    ∧ ((wfspBtcChild L mnemonic index network).privateKey = none →
      ∃ e, walletFromSeedPhrase L mnemonic index network = Except.error e)
    ∧ ((wfspTaprootChild L mnemonic index network).privateKey = none →
      ∃ e, walletFromSeedPhrase L mnemonic index network = Except.error e)
    ∧ ((wfspBtcChild L mnemonic index network).privateKey = none →
      ∃ e, getBtcPrivateKey L mnemonic index network = Except.error e)
    ∧ ((wfspTaprootChild L mnemonic index network).privateKey = none →
      ∃ e, getBtcTaprootPrivateKey L mnemonic index network = Except.error e) := by
  refine ⟨?_, ?_, ?_, ?_, ?_, ?_⟩
  · intro h
    have hr : deriveStxAddressChain L chain idx rootNode
        = Except.error "Unable to derive private key from rootNode, bip32 master keychain" := by
      simp [deriveStxAddressChain, h]
    exact ⟨_, hr⟩
  · intro h
    have hr : walletFromSeedPhrase L mnemonic index network
        = Except.error "Unable to derive private key from rootNode, bip32 master keychain" := by
      simp [walletFromSeedPhrase, deriveStxAddressChain, h]
    exact ⟨_, hr⟩
  · intro h
    cases hkc : deriveStxAddressChain L (chainForNetwork network) index (wfspMaster L mnemonic) with
    | error e => exact ⟨e, by simp [walletFromSeedPhrase, hkc]⟩
    | ok kc =>
      have hr : walletFromSeedPhrase L mnemonic index network
          = Except.error "TypeError: ECPair.fromPrivateKey of undefined" := by
        simp [walletFromSeedPhrase, hkc, h]
      exact ⟨_, hr⟩
  · intro h
    cases hkc : deriveStxAddressChain L (chainForNetwork network) index (wfspMaster L mnemonic) with
    | error e => exact ⟨e, by simp [walletFromSeedPhrase, hkc]⟩
    | ok kc =>
      cases hb : (wfspBtcChild L mnemonic index network).privateKey with
      | none =>
        have hr : walletFromSeedPhrase L mnemonic index network
            = Except.error "TypeError: ECPair.fromPrivateKey of undefined" := by
          simp [walletFromSeedPhrase, hkc, hb]
        exact ⟨_, hr⟩
      | some k =>
        have hr : walletFromSeedPhrase L mnemonic index network
            = Except.error "TypeError: Cannot read properties of undefined (reading toString)" := by
          simp [walletFromSeedPhrase, hkc, hb, h]
        exact ⟨_, hr⟩
  · intro h
    exact ⟨_, by rw [getBtcPrivateKey_eq_match, h]⟩
  · intro h
    exact ⟨_, by rw [getBtcTaprootPrivateKey_eq_match, h]⟩

/-- Witness for C7: on libraries whose derived children carry no private
key, every derivation errors at a concrete input. -/
theorem derivations_error_on_missing_private_key_witness :
    (∃ e, deriveStxAddressChain noneKeyLibs ChainID.Mainnet 0
        (wfspMaster noneKeyLibs "abc") = Except.error e)
    ∧ (∃ e, walletFromSeedPhrase noneKeyLibs "abc" 0 NetworkType.Mainnet = Except.error e)
    ∧ (∃ e, getBtcPrivateKey noneKeyLibs "abc" 0 NetworkType.Mainnet = Except.error e)
    ∧ (∃ e, getBtcTaprootPrivateKey noneKeyLibs "abc" 0 NetworkType.Mainnet = Except.error e) :=
  ⟨(derivations_error_on_missing_private_key noneKeyLibs "abc" 0 NetworkType.Mainnet
      ChainID.Mainnet 0 (wfspMaster noneKeyLibs "abc")).1 (by rfl),
   (derivations_error_on_missing_private_key noneKeyLibs "abc" 0 NetworkType.Mainnet
      ChainID.Mainnet 0 (wfspMaster noneKeyLibs "abc")).2.1 (by rfl),
   (derivations_error_on_missing_private_key noneKeyLibs "abc" 0 NetworkType.Mainnet
      ChainID.Mainnet 0 (wfspMaster noneKeyLibs "abc")).2.2.2.2.1 (by rfl),
   (derivations_error_on_missing_private_key noneKeyLibs "abc" 0 NetworkType.Mainnet
      ChainID.Mainnet 0 (wfspMaster noneKeyLibs "abc")).2.2.2.2.2 (by rfl)⟩

/-- Default keychain used when extracting from Except. -/
def emptyKeychain : Keychain :=
  { childKey := { privateKey := none, publicKey := [] }, address := "", privateKey := "" }

/-- The keychain produced on the test libraries for the Mainnet chain ID. -/
def testKeychainMainnet : Keychain :=
  (getStxAddressKeyChain testLibs "abc" ChainID.Mainnet 0).toOption.getD emptyKeychain

/-- The keychain produced on the test libraries for the Testnet chain ID. -/
def testKeychainTestnet : Keychain :=
  (getStxAddressKeyChain testLibs "abc" ChainID.Testnet 0).toOption.getD emptyKeychain

/-- C9: the Stacks private key is independent of the chain ID — two
successful runs of `getStxAddressKeyChain` differing only in the chain ID
return the same childKey and the same privateKey hex; the address uses the
Mainnet transaction version exactly when the chain ID is Mainnet. -/
theorem getStxAddressKeyChain_chainID_independent_keys (L : CryptoLibs)
    (mnemonic : String) (accountIndex : Int) (r1 r2 : Keychain)
    (h1 : getStxAddressKeyChain L mnemonic ChainID.Mainnet accountIndex = Except.ok r1)
    (h2 : getStxAddressKeyChain L mnemonic ChainID.Testnet accountIndex = Except.ok r2) :
    r1.childKey = r2.childKey ∧ r1.privateKey = r2.privateKey
    ∧ r1.address = L.getAddressFromPrivateKey r1.privateKey TransactionVersion.Mainnet
    ∧ r2.address = L.getAddressFromPrivateKey r2.privateKey TransactionVersion.Testnet := by
  cases hpk : (L.derivePath (wfspMaster L mnemonic)
      (STX_PATH_WITHOUT_INDEX ++ toString accountIndex)).privateKey with
  | none =>
    simp [getStxAddressKeyChain, deriveStxAddressChain, getDerivationPath,
      derivationPaths, hpk] at h1
  | some pk =>
    simp only [getStxAddressKeyChain, deriveStxAddressChain, getDerivationPath,
      derivationPaths, hpk] at h1 h2
    injection h1 with h1
    injection h2 with h2
    subst h1
    subst h2
    exact ⟨rfl, rfl, rfl, rfl⟩

/-- Witness for C9 at a concrete successful input. -/
theorem getStxAddressKeyChain_chainID_independent_keys_witness :
    testKeychainMainnet.childKey = testKeychainTestnet.childKey
    ∧ testKeychainMainnet.privateKey = testKeychainTestnet.privateKey
    ∧ testKeychainMainnet.address
        = testLibs.getAddressFromPrivateKey testKeychainMainnet.privateKey TransactionVersion.Mainnet
    ∧ testKeychainTestnet.address
        = testLibs.getAddressFromPrivateKey testKeychainTestnet.privateKey TransactionVersion.Testnet :=
  getStxAddressKeyChain_chainID_independent_keys testLibs "abc" 0
    testKeychainMainnet testKeychainTestnet (by rfl) (by rfl)

/-- C2: the Stacks derivation path used by `deriveStxAddressChain` is
`derivationPaths chain` with the index appended, each ChainID selects a
fixed template (here both select `STX_PATH_WITHOUT_INDEX`), and the
template takes no account argument: for every chain and index the path is
the chain's fixed template followed by the rendered index. -/
theorem stx_derivation_path_is_template_plus_index :
    ∀ (chain : ChainID) (index : Int),
      getDerivationPath chain index = derivationPaths chain ++ toString index
      ∧ derivationPaths chain = STX_PATH_WITHOUT_INDEX := by
  intro chain index
  cases chain <;> exact ⟨rfl, rfl⟩

/-- C4: with account omitted, index 0 and network Mainnet,
`getBitcoinDerivationPath` is the wrapped-segwit mainnet path and ends in
the suffix given in the spec; and for every account and index, the Mainnet
and Testnet results decompose as the purpose prefix, then the coin-type
segment (0 hardened vs 1 hardened), then an identical remainder. -/
theorem getBitcoinDerivationPath_formatting :
    (getBitcoinDerivationPath none 0 NetworkType.Mainnet
        = BTC_WRAPPED_SEGWIT_PATH_PURPOSE ++ "0\x27/0\x27/0/0"
      ∧ getBitcoinDerivationPath none 0 NetworkType.Mainnet
        = "m/49\x27/0" ++ "\x27/0\x27/0/0")
    ∧ ∀ (account : Option Int) (index : Int),
        getBitcoinDerivationPath account index NetworkType.Mainnet
          = BTC_WRAPPED_SEGWIT_PATH_PURPOSE ++ "0\x27/"
            ++ (accountIndexString account ++ "\x27/0/" ++ toString index)
        ∧ getBitcoinDerivationPath account index NetworkType.Testnet
          = BTC_WRAPPED_SEGWIT_PATH_PURPOSE ++ "1\x27/"
            ++ (accountIndexString account ++ "\x27/0/" ++ toString index) := by
  refine ⟨⟨by decide, by decide⟩, ?_⟩
  intro account index
  constructor
  · show BTC_WRAPPED_SEGWIT_PATH_PURPOSE ++ "0\x27/" ++ accountIndexString account
        ++ "\x27/0/" ++ toString index = _
    simp [String.append_assoc]
  · show BTC_WRAPPED_SEGWIT_PATH_PURPOSE ++ "1\x27/" ++ accountIndexString account
        ++ "\x27/0/" ++ toString index = _
    simp [String.append_assoc]

/-- Library stand-in whose c32 decoder returns a Mainnet single-sig
version byte with a non-empty hash. -/
def decodeMainnetLibs : CryptoLibs :=
  { testLibs with c32addressDecode := fun _ => Except.ok (22, "aabbccdd") }

/-- Library stand-in whose c32 decoder returns version byte 0. -/
def zeroVersionLibs : CryptoLibs :=
  { testLibs with c32addressDecode := fun _ => Except.ok (0, "aabbccdd") }

/-- Library stand-in whose c32 decoder returns an empty hash component. -/
def emptyHashLibs : CryptoLibs :=
  { testLibs with c32addressDecode := fun _ => Except.ok (22, "") }

/-- Library stand-in whose bitcoin address validator throws. -/
def throwValidateLibs : CryptoLibs :=
  { testLibs with validate := fun _ _ => Except.error "Invalid address" }

/-- C5: for a string whose c32 decoding succeeds with a (necessarily
non-empty) hash component, `validateStxAddress` accepts under Mainnet
exactly the MainnetSingleSig/MainnetMultiSig version bytes and under
Testnet exactly the TestnetSingleSig/TestnetMultiSig version bytes — so a
decodable address of the other network is rejected; and a string that is
not c32-decodable is rejected under both networks. -/
theorem validateStxAddress_version_check (L : CryptoLibs) (s : String) :
    (∀ v hsh, L.c32addressDecode s = Except.ok (v, hsh) → hsh ≠ "" →
      (validateStxAddress L s NetworkType.Mainnet = true
        ↔ (v = AddressVersionMainnetSingleSig ∨ v = AddressVersionMainnetMultiSig))
      ∧ (validateStxAddress L s NetworkType.Testnet = true
        ↔ (v = AddressVersionTestnetSingleSig ∨ v = AddressVersionTestnetMultiSig)))
    ∧ (∀ e, L.c32addressDecode s = Except.error e →
      validateStxAddress L s NetworkType.Mainnet = false
      ∧ validateStxAddress L s NetworkType.Testnet = false) := by
  constructor
  · intro v hsh hdec hne
    by_cases hv0 : v = 0
    · subst hv0
      constructor
      · simp [validateStxAddress, hdec, AddressVersionMainnetSingleSig,
          AddressVersionMainnetMultiSig]
      · simp [validateStxAddress, hdec, AddressVersionTestnetSingleSig,
          AddressVersionTestnetMultiSig]
    · constructor
      · by_cases h22 : v = AddressVersionMainnetSingleSig
          <;> by_cases h20 : v = AddressVersionMainnetMultiSig
          <;> simp_all [validateStxAddress, hdec, AddressVersionMainnetSingleSig,
                AddressVersionMainnetMultiSig]
      · by_cases h26 : v = AddressVersionTestnetSingleSig
          <;> by_cases h21 : v = AddressVersionTestnetMultiSig
          <;> simp_all [validateStxAddress, hdec, AddressVersionTestnetSingleSig,
                AddressVersionTestnetMultiSig]
  · intro e hdec
    exact ⟨by simp [validateStxAddress, hdec], by simp [validateStxAddress, hdec]⟩

/-- Witness for C5: a decoder yielding a Mainnet single-sig version makes
`validateStxAddress` accept under Mainnet and reject under Testnet, and a
decoder that throws makes it reject. -/
theorem validateStxAddress_version_check_witness :
    (validateStxAddress decodeMainnetLibs "addr" NetworkType.Mainnet = true
      ↔ (22 = AddressVersionMainnetSingleSig ∨ 22 = AddressVersionMainnetMultiSig))
    ∧ (validateStxAddress decodeMainnetLibs "addr" NetworkType.Testnet = true
      ↔ (22 = AddressVersionTestnetSingleSig ∨ 22 = AddressVersionTestnetMultiSig))
    ∧ validateStxAddress testLibs "notanaddress" NetworkType.Mainnet = false :=
  ⟨((validateStxAddress_version_check decodeMainnetLibs "addr").1 22 "aabbccdd"
      rfl (by decide)).1,
   ((validateStxAddress_version_check decodeMainnetLibs "addr").1 22 "aabbccdd"
      rfl (by decide)).2,
   ((validateStxAddress_version_check testLibs "notanaddress").2
      "Invalid c32 address: checksum mismatch" rfl).1⟩

/-- C6: the validators are boolean-total and catch library exceptions — if
the c32 decoder throws, `validateStxAddress` returns `false`; if the
bitcoin address validation library throws, `validateBtcAddress` returns
`false`; and both always return one of `true`/`false`. -/
theorem validators_never_raise (L : CryptoLibs) (a : String) (network : NetworkType) :
    (∀ e, L.c32addressDecode a = Except.error e →
      validateStxAddress L a network = false)
    ∧ (∀ e, L.validate a (btcValidationNetwork network) = Except.error e →
      validateBtcAddress L a network = false)
    ∧ (validateStxAddress L a network = true ∨ validateStxAddress L a network = false)
    ∧ (validateBtcAddress L a network = true ∨ validateBtcAddress L a network = false) := by
  refine ⟨?_, ?_, ?_, ?_⟩
  · intro e he
    simp [validateStxAddress, he]
  · intro e he
    simp [validateBtcAddress, he]
  · cases hb : validateStxAddress L a network
    · exact Or.inr rfl
    · exact Or.inl rfl
  · cases hb : validateBtcAddress L a network
    · exact Or.inr rfl
    · exact Or.inl rfl

/-- Witness for C6: validators map thrown library errors to `false` at
concrete inputs. -/
theorem validators_never_raise_witness :
    validateStxAddress throwValidateLibs "x" NetworkType.Mainnet = false
    ∧ validateBtcAddress throwValidateLibs "x" NetworkType.Mainnet = false :=
  ⟨(validators_never_raise throwValidateLibs "x" NetworkType.Mainnet).1
      "Invalid c32 address: checksum mismatch" rfl,
   (validators_never_raise throwValidateLibs "x" NetworkType.Mainnet).2.1
      "Invalid address" rfl⟩

/-- C10: `validateStxAddress` rejects any input whose c32 decoding yields a
falsy component — version byte 0 or an empty hash string — under either
network, regardless of the per-network version comparison. -/
theorem validateStxAddress_falsy_components (L : CryptoLibs) (s : String)
    (network : NetworkType) (v : Nat) (hsh : String) :
    (L.c32addressDecode s = Except.ok (0, hsh) → validateStxAddress L s network = false)
    ∧ (L.c32addressDecode s = Except.ok (v, "") → validateStxAddress L s network = false) := by
  constructor
  · intro hdec
    cases network <;> simp [validateStxAddress, hdec]
  · intro hdec
    cases network <;> simp [validateStxAddress, hdec]

/-- Witness for C10 at concrete decoders returning a zero version byte and
an empty hash component. -/
theorem validateStxAddress_falsy_components_witness :
    validateStxAddress zeroVersionLibs "addr" NetworkType.Mainnet = false
    ∧ validateStxAddress emptyHashLibs "addr" NetworkType.Testnet = false :=
  ⟨(validateStxAddress_falsy_components zeroVersionLibs "addr" NetworkType.Mainnet
      0 "aabbccdd").1 rfl,
   (validateStxAddress_falsy_components emptyHashLibs "addr" NetworkType.Testnet
      22 "aabbccdd").2 rfl⟩

/-- Stub password-hash callback for evaluating the encryption shim. -/
def stubHashGen : String → SaltHash :=
  fun password => { salt := "salt", hash := password ++ "-hash" }

/-- Stub encryption handler: the seed's character codes, ignoring the key. -/
def stubEnc : String → String → Bytes :=
  fun seed _ => seed.data.map Char.toNat

/-- Stub decryption handler: decode hex back to characters, ignoring the key. -/
def stubDec : String → String → String :=
  fun encrypted _ => String.mk ((hexDecode encrypted).map Char.ofNat)

/-- C8: whenever the decryption handler inverts the encryption handler under
the hash produced for the password (on the hex rendering of the returned
buffer), `decryptMnemonicWithCallback` applied to the result of
`encryptMnemonicWithCallback` reproduces the original seed string. -/
theorem decrypt_encrypt_roundtrip (passwordHashGenerator : String → SaltHash)
    (mnemonicEncryptionHandler : String → String → Bytes)
    (mnemonicDecryptionHandler : String → String → String)
    (password seed : String)
    (hinv : ∀ buf, mnemonicEncryptionHandler seed (passwordHashGenerator password).hash = buf →
      mnemonicDecryptionHandler (hexEncode buf) (passwordHashGenerator password).hash = seed) :
    decryptMnemonicWithCallback passwordHashGenerator mnemonicDecryptionHandler password
      (encryptMnemonicWithCallback passwordHashGenerator mnemonicEncryptionHandler password seed)
      = seed :=
  hinv _ rfl

/-- Witness for C8 with concrete reversible stub callbacks. -/
theorem decrypt_encrypt_roundtrip_witness :
    decryptMnemonicWithCallback stubHashGen stubDec "pw"
      (encryptMnemonicWithCallback stubHashGen stubEnc "pw" "ab") = "ab" :=
  decrypt_encrypt_roundtrip stubHashGen stubEnc stubDec "pw" "ab"
    (by
      intro buf hb
      rw [← hb]
      decide)

end Xverse
